import Mathlib

/-!
Shallow embedding of `src/index.py` (LinkedIn job scraper).

External effects are modelled explicitly:
* the typeahead HTTP lookup in `get_company_linkedin_id` is an oracle value of
  type `LookupOutcome` (success with an id, an empty hit list, or one of the
  three exception classes the source catches);
* the `scrape_jobs` call is an oracle value of type `FetchOutcome` (a list of
  rows, or an exception);
* the `jobs.to_csv` append in `run_through_csv` is an oracle value of type
  `WriteOutcome`;
* CSV files written by the program are modelled as lists of records carried in
  a `RunState`; each record remembers the directory it was written under,
  since `save_error_records` receives different directory arguments on
  different call paths.

Pandas cells are modelled by `Cell` (`str` or `nan`), with Python truthiness
(`nan` is truthy, `""` is falsy) and `pd.isna` reproduced exactly.
-/

namespace Scraper

/-- One job row of the tabular fetch result.  Only the dedupe-key columns
(title, company, location) are named; everything else is collapsed into
`other`. -/
structure JobRow where
  title : String
  company : String
  location : String
  other : String
deriving DecidableEq

/-- The dedupe key the spec assigns to a row: (title, company, location). -/
def dedupeKey (r : JobRow) : String × String × String :=
  (r.title, r.company, r.location)

/-- Outcome of one call to the LinkedIn typeahead endpoint, as distinguished
by the `try/except` structure of `get_company_linkedin_id` (src lines 19-50):
a successful decode with at least one hit, a successful decode with no hits,
or one of the three caught exception classes. -/
inductive LookupOutcome where
  | ok (id : Nat)
  | noHits
  | jsonDecodeError
  | requestError (msg : String)
  | otherError (msg : String)
deriving DecidableEq

/-- Whether the lookup produced a company id. -/
def LookupOutcome.resolves : LookupOutcome → Bool
  | .ok _ => true
  | _ => false

/-- Whether the lookup outcome is one of the three exception classes, i.e.
whether `get_company_linkedin_id` reaches a `save_error_records` call. -/
def LookupOutcome.emitsError : LookupOutcome → Bool
  | .jsonDecodeError => true
  | .requestError _ => true
  | .otherError _ => true
  | _ => false

/-- Outcome of one call to the external `scrape_jobs` service: a (possibly
empty) list of rows, or a raised exception. -/
inductive FetchOutcome where
  | rows (jobs : List JobRow)
  | raises (msg : String)
deriving DecidableEq

/-- Outcome of the `jobs.to_csv(output_file, mode='a', ...)` append in
`run_through_csv` (src line 165). -/
inductive WriteOutcome where
  | ok
  | raises (msg : String)
deriving DecidableEq

/-- One line appended to an `error_records.csv` file.  `dir` is the
`output_dir` argument `save_error_records` was called with (the file lives at
`os.path.join(dir, "error_records.csv")`).  `fromResolver` is ghost
instrumentation recording whether the emission happened inside
`get_company_linkedin_id` (src lines 41/45/49) or in the driver's per-company
`except` handler (src line 170). -/
structure ErrorRecord where
  dir : String
  company : String
  message : String
  fromResolver : Bool
deriving DecidableEq

/-- One line appended to a `no_jobs_found.csv` file: the directory it was
written under and the company name. -/
structure NoJobsRecord where
  dir : String
  company : String
deriving DecidableEq

/-- A pandas cell: a string or NaN. -/
inductive Cell where
  | str (s : String)
  | nan
deriving DecidableEq

/-- `pd.isna` on a cell. -/
def Cell.isna : Cell → Bool
  | .nan => true
  | .str _ => false

/-- Python truthiness of a cell value: `float('nan')` is truthy, a string is
truthy iff non-empty. -/
def Cell.truthy : Cell → Bool
  | .nan => true
  | .str s => !s.isEmpty

/-- The string a cell renders to when interpolated into the lookup URL. -/
def Cell.render : Cell → String
  | .nan => "nan"
  | .str s => s

/-- Python truthiness of `fallback_company_name`, whose value is `None` when
the fallback column is absent and a cell value otherwise. -/
def truthyOpt : Option Cell → Bool
  | none => false
  | some c => c.truthy

/-- The module-level `OUTPUT_DIR` variable (src line 16).  `run_through_csv`
assigns `OUTPUT_DIR = output_dir` without a `global` declaration (src line
122), which in Python binds a fresh function-local name, so the module-level
binding keeps this value for the whole process. -/
def OUTPUT_DIR : String := ""

/-- `save_error_records` (src lines 106-116): append one (company, message)
line to `error_records.csv` under `output_dir`.  The file contents are the
log list; `src_resolver` is the ghost provenance flag stored in the record. -/
def save_error_records (company_name : String) (error_message : String)
    (output_dir : String) (src_resolver : Bool)
    (log : List ErrorRecord) : List ErrorRecord :=
  log ++ [⟨output_dir, company_name, error_message, src_resolver⟩]

/-- `save_empty_or_none_records` (src lines 93-103): append one company line
to `no_jobs_found.csv` under `output_dir`. -/
def save_empty_or_none_records (company_name : String) (output_dir : String)
    (log : List NoJobsRecord) : List NoJobsRecord :=
  log ++ [⟨output_dir, company_name⟩]

/-- `get_company_linkedin_id` (src lines 17-50).  Returns the optional id
together with the error records it appended (it writes them via
`save_error_records(..., OUTPUT_DIR)` with the module-level `OUTPUT_DIR`,
passed here as the `OUTPUT_DIR_global` argument).  The Python function
catches every `Exception`, so it is total: the embedding returns a plain
pair, never an exception. -/
def get_company_linkedin_id (company_name : String) (outcome : LookupOutcome)
    (OUTPUT_DIR_global : String) : Option Nat × List ErrorRecord :=
  match outcome with
  | .ok id => (some id, [])
  | .noHits => (none, [])
  | .jsonDecodeError =>
      (none, save_error_records company_name "JSONDecodeError: Failed to decode JSON"
        OUTPUT_DIR_global true [])
  | .requestError e =>
      (none, save_error_records company_name ("RequestException: " ++ e)
        OUTPUT_DIR_global true [])
  | .otherError e =>
      (none, save_error_records company_name ("UnexpectedError: " ++ e)
        OUTPUT_DIR_global true [])

/-- The external-call outcomes one call to `scrape_company_linkedin_jobs` can
consume: at most one primary lookup, one primary fetch, one fallback lookup
and one fallback fetch. -/
structure ScrapeOracle where
  primaryLookup : LookupOutcome
  primaryFetch : FetchOutcome
  fallbackLookup : LookupOutcome
  fallbackFetch : FetchOutcome
deriving DecidableEq

/-- Result of `scrape_company_linkedin_jobs`: the returned DataFrame as a row
list, the error records written during the call, and (ghost) how many lookup
calls were made with the fallback name. -/
structure ScrapeResult where
  jobs : List JobRow
  errors : List ErrorRecord
  fallbackLookups : Nat
deriving DecidableEq

/-- The `try` block of `scrape_company_linkedin_jobs` (src lines 54-87).
`.error (msg, errs, k)` models an exception escaping the block after the
side effects `errs` (error records already written) with `k` fallback
lookups performed; `.ok` is a normal return. -/
def scrape_body (company_name : String) (location : String)
    (fallback_company_name : Option Cell) (o : ScrapeOracle)
    (OUTPUT_DIR_global : String) :
    Except (String × List ErrorRecord × Nat) ScrapeResult :=
  match get_company_linkedin_id company_name o.primaryLookup OUTPUT_DIR_global with
  | (none, errs) => .ok ⟨[], errs, 0⟩
  | (some _, errs) =>
    match o.primaryFetch with
    | .raises msg => .error (msg, errs, 0)
    | .rows jobs =>
      if jobs.isEmpty && truthyOpt fallback_company_name then
        let fbName := ((fallback_company_name.getD (.str "")).render)
        match get_company_linkedin_id fbName o.fallbackLookup OUTPUT_DIR_global with
        | (none, errs2) => .ok ⟨[], errs ++ errs2, 1⟩
        | (some _, errs2) =>
          match o.fallbackFetch with
          | .raises msg => .error (msg, errs ++ errs2, 1)
          | .rows jobs2 => .ok ⟨jobs2, errs ++ errs2, 1⟩
      else
        .ok ⟨jobs, errs, 0⟩

/-- `scrape_company_linkedin_jobs` (src lines 52-91): the `try` block wrapped
in the catch-all `except Exception` handler, which logs and returns
`pd.DataFrame()` (an empty row list).  The `location` argument is forwarded
to the external fetch and does not influence control flow. -/
def scrape_company_linkedin_jobs (company_name : String) (location : String)
    (fallback_company_name : Option Cell) (o : ScrapeOracle)
    (OUTPUT_DIR_global : String) : ScrapeResult :=
  match scrape_body company_name location fallback_company_name o OUTPUT_DIR_global with
  | .ok r => r
  | .error (_, errs, k) => ⟨[], errs, k⟩

/-- One row of the input CSV: the `Company` cell and the
`Company Name for Emails` cell. -/
structure CsvRow where
  company : Cell
  fallback : Cell
deriving DecidableEq

/-- The parsed input CSV. -/
structure Csv where
  hasCompanyColumn : Bool
  hasFallbackColumn : Bool
  rows : List CsvRow
deriving DecidableEq

/-- All external-call outcomes consumed while processing one company in the
driver loop: the scrape oracle plus the outcome of the `to_csv` append. -/
structure CompanyOracle extends ScrapeOracle where
  writeJobs : WriteOutcome
deriving DecidableEq

/-- The observable file state of a run, plus ghost instrumentation.
`globalOutputDir` is the module-level `OUTPUT_DIR` as seen by the resolver;
`fetchAttempts` counts calls into `scrape_company_linkedin_jobs`; `visited`
records the loop indices iterated. -/
structure RunState where
  globalOutputDir : String
  errorLog : List ErrorRecord
  noJobsLog : List NoJobsRecord
  outputRows : List JobRow
  fetchAttempts : Nat
  visited : List Nat
deriving DecidableEq

/-- The state at the start of a run: module-level `OUTPUT_DIR`, no files
written. -/
def initState : RunState := ⟨OUTPUT_DIR, [], [], [], 0, []⟩

/-- The body of the driver loop for a non-skipped index (src lines 151-173):
NaN companies are skipped (src lines 153-154); otherwise the company is
scraped, empty results go to the no-jobs log (src line 162), non-empty
results are appended to `jobs.csv` (src line 165), and an exception from
that append is caught by the inner `except`, which writes an error record
under `output_dir` (src line 170).  `scrape_company_linkedin_jobs` itself
never raises, so the inner `except` can only be reached from the append. -/
def processRow (location : String) (output_dir : String) (hasFallback : Bool)
    (o : CompanyOracle) (st : RunState) (row : CsvRow) : RunState :=
  if row.company.isna then st
  else
    let company_fallback : Option Cell :=
      if hasFallback then some row.fallback else none
    let r := scrape_company_linkedin_jobs row.company.render location
      company_fallback o.toScrapeOracle st.globalOutputDir
    let st1 : RunState :=
      { st with
        fetchAttempts := st.fetchAttempts + 1
        errorLog := st.errorLog ++ r.errors }
    if r.jobs.isEmpty then
      { st1 with
        noJobsLog := save_empty_or_none_records row.company.render output_dir st1.noJobsLog }
    else
      match o.writeJobs with
      | .ok => { st1 with outputRows := st1.outputRows ++ r.jobs }
      | .raises msg =>
        { st1 with
          errorLog := save_error_records row.company.render msg output_dir false st1.errorLog }

/-- One iteration of `for idx in range(start_idx, end_idx + 1)`
(src line 150). -/
def stepCompany (df : Csv) (location : String) (output_dir : String)
    (oracle : Nat → CompanyOracle) (st : RunState) (idx : Nat) : RunState :=
  match df.rows[idx]? with
  | none => st
  | some row =>
      processRow location output_dir df.hasFallbackColumn (oracle idx)
        { st with visited := st.visited ++ [idx] } row

/-- How `run_through_csv` terminated. -/
inductive RunOutcome where
  | csvNotFound
  | missingCompanyColumn
  | rangeError (start_idx : Int) (end_idx : Int)
  | completed
deriving DecidableEq

/-- Result of a `run_through_csv` call: the termination outcome, the final
file/ghost state, and whether the output directory / `jobs.csv` were newly
created. -/
structure RunResult where
  outcome : RunOutcome
  state : RunState
  madeOutputDir : Bool
  createdOutputFile : Bool
deriving DecidableEq

/-- The clamping of `end_idx` in src lines 134-135: `None` or any value
`>= total_rows` becomes `total_rows - 1`. -/
def clampEnd (total_rows : Int) (end_idx : Option Int) : Int :=
  match end_idx with
  | none => total_rows - 1
  | some e => if e ≥ total_rows then total_rows - 1 else e

/-- `run_through_csv` (src lines 119-176).  `csvExists` models
`os.path.exists(csv_file)`; `outputDirExists` / `outputFileExists` model the
pre-loop existence checks.  The statement `OUTPUT_DIR = output_dir`
(src line 122) binds a function-local name — there is no `global OUTPUT_DIR`
declaration — so the module-level variable read by the resolver keeps its
initial value, which is why `initState.globalOutputDir` is used unchanged.
The loop runs over indices `start_idx .. end_idx'` exactly when
`start_idx ≥ 0` and `start_idx ≤ end_idx'` (src lines 137-139). -/
def run_through_csv (csvExists : Bool) (df : Csv) (location : String)
    (output_dir : String) (outputDirExists : Bool) (outputFileExists : Bool)
    (start_idx : Int) (end_idx : Option Int)
    (oracle : Nat → CompanyOracle) : RunResult :=
  if !csvExists then ⟨.csvNotFound, initState, false, false⟩
  else if !df.hasCompanyColumn then ⟨.missingCompanyColumn, initState, false, false⟩
  else
    let total_rows : Int := df.rows.length
    let end_idx' := clampEnd total_rows end_idx
    if start_idx < 0 || start_idx > end_idx' then
      ⟨.rangeError start_idx end_idx', initState, false, false⟩
    else
      let idxs := List.range' start_idx.toNat (end_idx' + 1 - start_idx).toNat
      let final := idxs.foldl (stepCompany df location output_dir oracle) initState
      ⟨.completed, final, !outputDirExists, !outputFileExists⟩

/-- For concrete instances: an oracle where every lookup finds no hits,
every fetch returns no rows, and the output write succeeds. -/
def benignOracle : CompanyOracle := ⟨⟨.noHits, .rows [], .noHits, .rows []⟩, .ok⟩

/-! ### Helper lemmas about the embedding -/

/-- Every error record emitted by `get_company_linkedin_id` carries the
directory it was called with and the resolver provenance flag. -/
theorem get_company_errors_dir (name : String) (o : LookupOutcome) (g : String) :
    ∀ e ∈ (get_company_linkedin_id name o g).2, e.dir = g ∧ e.fromResolver = true := by
  cases o <;> simp [get_company_linkedin_id, save_error_records]

/-- Every error record emitted during `scrape_company_linkedin_jobs` comes
from the resolver and carries the module-level output directory. -/
theorem scrape_errors_dir (name loc : String) (fb : Option Cell) (o : ScrapeOracle)
    (g : String) :
    ∀ e ∈ (scrape_company_linkedin_jobs name loc fb o g).errors,
      e.dir = g ∧ e.fromResolver = true := by
  intro e he
  have h1 := get_company_errors_dir name o.primaryLookup g
  have h2 := get_company_errors_dir ((fb.getD (.str "")).render) o.fallbackLookup g
  unfold scrape_company_linkedin_jobs scrape_body at he
  rcases hp : get_company_linkedin_id name o.primaryLookup g with ⟨pid, errs1⟩
  rw [hp] at he h1
  cases pid with
  | none =>
    simp only at he
    exact h1 e (by simpa using he)
  | some id =>
    cases hpf : o.primaryFetch with
    | raises msg =>
      rw [hpf] at he
      simp only at he
      exact h1 e (by simpa using he)
    | rows jobs =>
      rw [hpf] at he
      simp only at he
      by_cases hc : (jobs.isEmpty && truthyOpt fb) = true
      · rw [if_pos hc] at he
        rcases hf : get_company_linkedin_id ((fb.getD (.str "")).render)
            o.fallbackLookup g with ⟨fid, errs2⟩
        rw [hf] at he h2
        cases fid with
        | none =>
          simp only at he
          rcases List.mem_append.1 (by simpa using he) with h | h
          · exact h1 e (by simpa using h)
          · exact h2 e (by simpa using h)
        | some fid' =>
          cases hff : o.fallbackFetch with
          | raises msg =>
            rw [hff] at he
            simp only at he
            rcases List.mem_append.1 (by simpa using he) with h | h
            · exact h1 e (by simpa using h)
            · exact h2 e (by simpa using h)
          | rows jobs2 =>
            rw [hff] at he
            simp only at he
            rcases List.mem_append.1 (by simpa using he) with h | h
            · exact h1 e (by simpa using h)
            · exact h2 e (by simpa using h)
      · rw [if_neg hc] at he
        exact h1 e (by simpa using he)

/-- `processRow` never changes the module-level output directory. -/
theorem processRow_globalOutputDir (loc dir : String) (hf : Bool) (o : CompanyOracle)
    (st : RunState) (row : CsvRow) :
    (processRow loc dir hf o st row).globalOutputDir = st.globalOutputDir := by
  unfold processRow
  dsimp only
  repeat' split
  all_goals rfl

/-- `processRow` never changes the visited-index trace. -/
theorem processRow_visited (loc dir : String) (hf : Bool) (o : CompanyOracle)
    (st : RunState) (row : CsvRow) :
    (processRow loc dir hf o st row).visited = st.visited := by
  unfold processRow
  dsimp only
  repeat' split
  all_goals rfl

/-- `stepCompany` never changes the module-level output directory. -/
theorem stepCompany_globalOutputDir (df : Csv) (loc dir : String)
    (oracle : Nat → CompanyOracle) (st : RunState) (idx : Nat) :
    (stepCompany df loc dir oracle st idx).globalOutputDir = st.globalOutputDir := by
  unfold stepCompany
  split
  · rfl
  · rw [processRow_globalOutputDir]

/-- For an in-range index, `stepCompany` appends exactly that index to the
visited trace. -/
theorem stepCompany_visited (df : Csv) (loc dir : String)
    (oracle : Nat → CompanyOracle) (st : RunState) (idx : Nat)
    (h : idx < df.rows.length) :
    (stepCompany df loc dir oracle st idx).visited = st.visited ++ [idx] := by
  unfold stepCompany
  rw [List.getElem?_eq_getElem h]
  rw [processRow_visited]

/-- Folding the loop body over in-range indices visits exactly those indices,
in order, regardless of the oracle. -/
theorem foldl_step_visited (df : Csv) (loc dir : String)
    (oracle : Nat → CompanyOracle) :
    ∀ (idxs : List Nat) (st : RunState), (∀ i ∈ idxs, i < df.rows.length) →
      (idxs.foldl (stepCompany df loc dir oracle) st).visited = st.visited ++ idxs := by
  intro idxs
  induction idxs with
  | nil => intro st _; simp
  | cons a l ih =>
    intro st h
    simp only [List.foldl_cons]
    rw [ih _ (fun i hi => h i (List.mem_cons_of_mem _ hi)),
      stepCompany_visited df loc dir oracle st a (h a (List.mem_cons_self a l))]
    simp

/-- Folding the loop body never changes the module-level output directory. -/
theorem foldl_step_globalOutputDir (df : Csv) (loc dir : String)
    (oracle : Nat → CompanyOracle) :
    ∀ (idxs : List Nat) (st : RunState),
      (idxs.foldl (stepCompany df loc dir oracle) st).globalOutputDir
        = st.globalOutputDir := by
  intro idxs
  induction idxs with
  | nil => intro st; rfl
  | cons a l ih =>
    intro st
    simp only [List.foldl_cons]
    rw [ih, stepCompany_globalOutputDir]

/-- Any record in the error log after `processRow` was already there, came
out of the scraper (hence the resolver), or is a driver record flagged as
such. -/
theorem processRow_errorLog_mem (loc dir : String) (hf : Bool) (o : CompanyOracle)
    (st : RunState) (row : CsvRow) (e : ErrorRecord)
    (he : e ∈ (processRow loc dir hf o st row).errorLog) :
    e ∈ st.errorLog ∨
    (∃ fb, e ∈ (scrape_company_linkedin_jobs row.company.render loc fb
      o.toScrapeOracle st.globalOutputDir).errors) ∨
    e.fromResolver = false := by
  unfold processRow at he
  by_cases hna : row.company.isna = true
  · rw [if_pos hna] at he
    exact Or.inl he
  · rw [if_neg hna] at he
    dsimp only at he
    repeat' split at he
    all_goals try dsimp only at he
    all_goals try simp only [save_error_records, List.append_assoc, List.mem_append,
      List.mem_singleton] at he
    all_goals (
      rcases he with h | h
      · exact Or.inl h
      · first
          | exact Or.inr (Or.inl ⟨_, h⟩)
          | (rcases h with h' | h'
             · exact Or.inr (Or.inl ⟨_, h'⟩)
             · exact Or.inr (Or.inr (by rw [h'])))
    )

/-- The resolver-provenance invariant on the error log is preserved by one
loop iteration, as long as the module-level output directory is `g`. -/
theorem stepCompany_resolver_inv (df : Csv) (loc dir : String)
    (oracle : Nat → CompanyOracle) (st : RunState) (idx : Nat) (g : String)
    (hg : st.globalOutputDir = g)
    (hinv : ∀ e ∈ st.errorLog, e.fromResolver = true → e.dir = g) :
    ∀ e ∈ (stepCompany df loc dir oracle st idx).errorLog,
      e.fromResolver = true → e.dir = g := by
  intro e he hres
  unfold stepCompany at he
  split at he
  · exact hinv e he hres
  · rcases processRow_errorLog_mem _ _ _ _ _ _ e he with h | ⟨fb, h⟩ | h
    · exact hinv e h hres
    · have := (scrape_errors_dir _ _ fb _ _ e h).1
      simpa [hg] using this
    · rw [hres] at h
      exact absurd h (by simp)

/-- The resolver-provenance invariant is preserved across the whole loop. -/
theorem foldl_step_resolver_inv (df : Csv) (loc dir : String)
    (oracle : Nat → CompanyOracle) (g : String) :
    ∀ (idxs : List Nat) (st : RunState), st.globalOutputDir = g →
      (∀ e ∈ st.errorLog, e.fromResolver = true → e.dir = g) →
      ∀ e ∈ (idxs.foldl (stepCompany df loc dir oracle) st).errorLog,
        e.fromResolver = true → e.dir = g := by
  intro idxs
  induction idxs with
  | nil => intro st _ hinv; exact hinv
  | cons a l ih =>
    intro st hg hinv
    simp only [List.foldl_cons]
    exact ih _ (by rw [stepCompany_globalOutputDir, hg])
      (stepCompany_resolver_inv df loc dir oracle st a g hg hinv)

/-- `scrape_company_linkedin_jobs` performs at most one lookup with the
fallback name, whatever the oracle does. -/
theorem scrape_fallbackLookups_le_one (name loc : String) (fb : Option Cell)
    (o : ScrapeOracle) (g : String) :
    (scrape_company_linkedin_jobs name loc fb o g).fallbackLookups ≤ 1 := by
  unfold scrape_company_linkedin_jobs scrape_body
  rcases hp : get_company_linkedin_id name o.primaryLookup g with ⟨pid, errs1⟩
  simp only [hp]
  cases pid with
  | none => exact Nat.zero_le 1
  | some id =>
    cases hpf : o.primaryFetch with
    | raises msg => exact Nat.zero_le 1
    | rows jobs =>
      dsimp only
      by_cases hc : (jobs.isEmpty && truthyOpt fb) = true
      · rw [if_pos hc]
        rcases hfb : get_company_linkedin_id ((fb.getD (.str "")).render)
            o.fallbackLookup g with ⟨fid, errs2⟩
        cases fid with
        | none => exact Nat.le_refl 1
        | some fid' => cases o.fallbackFetch <;> exact Nat.le_refl 1
      · rw [if_neg hc]
        exact Nat.zero_le 1

/-- When the primary lookup does not resolve, `scrape_company_linkedin_jobs`
returns immediately: empty result, only the primary lookup's error records,
and no fallback lookup (src lines 57-59 precede the fallback logic). -/
theorem scrape_primary_notFound (name loc : String) (fb : Option Cell)
    (o : ScrapeOracle) (g : String) (h : o.primaryLookup.resolves = false) :
    scrape_company_linkedin_jobs name loc fb o g =
      ⟨[], (get_company_linkedin_id name o.primaryLookup g).2, 0⟩ := by
  unfold scrape_company_linkedin_jobs scrape_body
  cases hpl : o.primaryLookup <;>
    simp_all [LookupOutcome.resolves, get_company_linkedin_id]

/-- When the primary lookup resolves, the primary fetch returns zero rows and
the fallback name is truthy, exactly one fallback lookup is performed. -/
theorem scrape_primary_empty_fb (name loc : String) (fb : Option Cell)
    (o : ScrapeOracle) (g : String) (id : Nat) (h1 : o.primaryLookup = .ok id)
    (h2 : o.primaryFetch = .rows []) (h3 : truthyOpt fb = true) :
    (scrape_company_linkedin_jobs name loc fb o g).fallbackLookups = 1 := by
  unfold scrape_company_linkedin_jobs scrape_body
  rw [h1, h2]
  simp only [get_company_linkedin_id, List.isEmpty_nil, h3, Bool.and_self, if_true]
  cases o.fallbackLookup <;> cases o.fallbackFetch <;>
    simp [get_company_linkedin_id]

/-! ### Claim theorems -/

/-- Claim C1 counterexample: the primary lookup returns NotFound for "Acme"
while a fallback name "Acme Inc" exists, would resolve (id 7) and would
yield a row — yet the function returns the empty result having performed
zero fallback lookups.  The claim "if the primary lookup returns NotFound
... the system retries resolution and fetch with the fallback name" is
false: the early return at src lines 57-59 precedes the fallback logic. -/
theorem C1_counterexample :
    scrape_company_linkedin_jobs "Acme" "US" (some (Cell.str "Acme Inc"))
      ⟨.noHits, .rows [], .ok 7, .rows [⟨"Engineer", "Acme", "NYC", "a"⟩]⟩ "" =
      ⟨[], [], 0⟩ := rfl

/-- Claim C1 (amended): the fallback name is used at most once; it is used
exactly once when the primary lookup resolves, the primary fetch returns
zero rows, and the fallback name is truthy; but when the primary lookup
fails to resolve, the function returns an empty result with zero fallback
attempts — the fallback is used only in the empty-fetch case, never in the
failed-lookup case. -/
theorem C1_amended (name loc : String) (fb : Option Cell) (o : ScrapeOracle)
    (g : String) :
    (scrape_company_linkedin_jobs name loc fb o g).fallbackLookups ≤ 1 ∧
    (o.primaryLookup.resolves = false →
      (scrape_company_linkedin_jobs name loc fb o g).fallbackLookups = 0 ∧
      (scrape_company_linkedin_jobs name loc fb o g).jobs = []) ∧
    (∀ id, o.primaryLookup = .ok id → o.primaryFetch = .rows [] →
      truthyOpt fb = true →
      (scrape_company_linkedin_jobs name loc fb o g).fallbackLookups = 1) := by
  refine ⟨scrape_fallbackLookups_le_one name loc fb o g, ?_, ?_⟩
  · intro h
    rw [scrape_primary_notFound name loc fb o g h]
    exact ⟨rfl, rfl⟩
  · intro id h1 h2 h3
    exact scrape_primary_empty_fb name loc fb o g id h1 h2 h3

/-- Claim C1 amended, witness: with a resolving primary lookup, an empty
primary fetch and the truthy fallback "Acme Inc", exactly one fallback
lookup happens. -/
theorem C1_amended_witness :
    (scrape_company_linkedin_jobs "Acme" "US" (some (Cell.str "Acme Inc"))
      ⟨.ok 3, .rows [], .ok 7, .rows [⟨"Engineer", "Acme", "NYC", "a"⟩]⟩ "").fallbackLookups
      = 1 :=
  (C1_amended "Acme" "US" (some (Cell.str "Acme Inc"))
    ⟨.ok 3, .rows [], .ok 7, .rows [⟨"Engineer", "Acme", "NYC", "a"⟩]⟩ "").2.2 3 rfl rfl rfl

/-- Claim C6 counterexample: a not-found lookup result ("no company found")
emits zero ErrorEntries before returning NotFound — the source only calls
`logger.warning` on this path (src lines 32-34), while the claim requires
exactly one ErrorEntry also for a not-found result. -/
theorem C6_counterexample :
    get_company_linkedin_id "Acme" .noHits "out" = (none, []) := rfl

/-- Claim C6 (amended): the resolver is total (it catches every exception,
so the embedding returns a plain pair); on each of the three exception
classes it emits exactly one ErrorEntry tagged with the failure kind before
returning NotFound; on a successful lookup it returns the id with no
ErrorEntry; and on a not-found result it returns NotFound without emitting
any ErrorEntry. -/
theorem C6_amended (name dir : String) :
    get_company_linkedin_id name .noHits dir = (none, []) ∧
    (∀ id, get_company_linkedin_id name (.ok id) dir = (some id, [])) ∧
    get_company_linkedin_id name .jsonDecodeError dir =
      (none, [⟨dir, name, "JSONDecodeError: Failed to decode JSON", true⟩]) ∧
    (∀ m, get_company_linkedin_id name (.requestError m) dir =
      (none, [⟨dir, name, "RequestException: " ++ m, true⟩])) ∧
    (∀ m, get_company_linkedin_id name (.otherError m) dir =
      (none, [⟨dir, name, "UnexpectedError: " ++ m, true⟩])) :=
  ⟨rfl, fun _ => rfl, rfl, fun _ => rfl, fun _ => rfl⟩

/-- Claim C9: `scrape_company_linkedin_jobs` is total at its boundary: any
exception escaping the `try` block (modelled by `scrape_body` returning
`.error`) is caught and converted to an empty result, a normal result is
returned as-is, and in particular a failed lookup also yields an empty
result.  The embedding's return type is a plain `ScrapeResult`, mirroring
the catch-all `except Exception` at src lines 89-91: no exception
propagates to the caller. -/
theorem C9_total_boundary (name loc : String) (fb : Option Cell)
    (o : ScrapeOracle) (g : String) :
    (∀ msg errs k, scrape_body name loc fb o g = .error (msg, errs, k) →
      scrape_company_linkedin_jobs name loc fb o g = ⟨[], errs, k⟩) ∧
    (∀ r, scrape_body name loc fb o g = .ok r →
      scrape_company_linkedin_jobs name loc fb o g = r) ∧
    (o.primaryLookup.resolves = false →
      (scrape_company_linkedin_jobs name loc fb o g).jobs = []) := by
  refine ⟨?_, ?_, ?_⟩
  · intro msg errs k h
    unfold scrape_company_linkedin_jobs
    rw [h]
  · intro r h
    unfold scrape_company_linkedin_jobs
    rw [h]
  · intro h
    rw [scrape_primary_notFound name loc fb o g h]

/-- Claim C9 witness: a fetch that raises "boom" after a successful lookup
is converted to the empty result. -/
theorem C9_witness :
    scrape_company_linkedin_jobs "Acme" "US" none
      ⟨.ok 5, .raises "boom", .noHits, .rows []⟩ "" = ⟨[], [], 0⟩ :=
  (C9_total_boundary "Acme" "US" none
    ⟨.ok 5, .raises "boom", .noHits, .rows []⟩ "").1 "boom" [] 0 rfl

/-- Claim C10: a row whose `Company` cell is NaN is skipped: the loop body
leaves the entire state unchanged except for the ghost visited trace — no
fetch is attempted (`fetchAttempts` unchanged) and nothing is written to
the error log, the no-jobs log or the output file (src lines 153-154). -/
theorem C10_nan_skip (df : Csv) (loc dir : String) (oracle : Nat → CompanyOracle)
    (st : RunState) (idx : Nat) (row : CsvRow) (h : df.rows[idx]? = some row)
    (hna : row.company.isna = true) :
    stepCompany df loc dir oracle st idx =
      { st with visited := st.visited ++ [idx] } := by
  unfold stepCompany
  simp only [h]
  unfold processRow
  rw [if_pos hna]

/-- Claim C10 witness: a one-row CSV whose company cell is NaN. -/
theorem C10_witness :
    stepCompany ⟨true, true, [⟨Cell.nan, Cell.str "X"⟩]⟩ "US" "out"
      (fun _ => benignOracle) initState 0 =
      { initState with visited := initState.visited ++ [0] } :=
  C10_nan_skip ⟨true, true, [⟨Cell.nan, Cell.str "X"⟩]⟩ "US" "out"
    (fun _ => benignOracle) initState 0 ⟨Cell.nan, Cell.str "X"⟩ rfl rfl

/-- A lookup outcome outside the three exception classes writes no error
records. -/
theorem get_company_errors_nil (name : String) (o : LookupOutcome) (g : String)
    (h : o.emitsError = false) : (get_company_linkedin_id name o g).2 = [] := by
  cases o <;> simp_all [LookupOutcome.emitsError, get_company_linkedin_id]

/-- When neither lookup hits an exception class, the scraper writes no error
records at all. -/
theorem scrape_errors_nil (name loc : String) (fb : Option Cell) (o : ScrapeOracle)
    (g : String) (h1 : o.primaryLookup.emitsError = false)
    (h2 : o.fallbackLookup.emitsError = false) :
    (scrape_company_linkedin_jobs name loc fb o g).errors = [] := by
  unfold scrape_company_linkedin_jobs scrape_body
  have e1 := get_company_errors_nil name o.primaryLookup g h1
  have e2 := get_company_errors_nil ((fb.getD (.str "")).render) o.fallbackLookup g h2
  rcases hp : get_company_linkedin_id name o.primaryLookup g with ⟨pid, errs1⟩
  rw [hp] at e1
  simp only at e1
  subst e1
  cases pid with
  | none => rfl
  | some id =>
    cases o.primaryFetch with
    | raises msg => rfl
    | rows jobs =>
      dsimp only
      by_cases hc : (jobs.isEmpty && truthyOpt fb) = true
      · rw [if_pos hc]
        rcases hfb : get_company_linkedin_id ((fb.getD (.str "")).render)
            o.fallbackLookup g with ⟨fid, errs2⟩
        rw [hfb] at e2
        simp only at e2
        subst e2
        cases fid with
        | none => rfl
        | some fid' => cases o.fallbackFetch <;> rfl
      · rw [if_neg hc]

/-- When the company cell is not NaN, the fetch result is non-empty and the
output append succeeds, the loop body appends the fetched rows to the main
output file during that very iteration. -/
theorem processRow_write_ok (loc dir : String) (hf : Bool) (o : CompanyOracle)
    (st : RunState) (row : CsvRow) (hna : row.company.isna = false)
    (hne : (scrape_company_linkedin_jobs row.company.render loc
      (if hf then some row.fallback else none) o.toScrapeOracle
      st.globalOutputDir).jobs ≠ [])
    (hok : o.writeJobs = .ok) :
    (processRow loc dir hf o st row).outputRows =
      st.outputRows ++ (scrape_company_linkedin_jobs row.company.render loc
        (if hf then some row.fallback else none) o.toScrapeOracle
        st.globalOutputDir).jobs := by
  unfold processRow
  rw [if_neg (by simp [hna])]
  dsimp only
  rw [if_neg (by simp [List.isEmpty_iff, hne]), hok]

/-! ### Claim theorems, continued -/

/-- Claim C2 counterexample: a single company's fetch returns two rows with
the identical dedupe key ("Engineer", "Acme", "NYC") differing in other
fields; after the run, the main output file holds both rows — the
earlier-inserted row is retained, contradicting last-write-wins dedupe
(the source appends with `to_csv(mode='a')` and never dedupes,
src line 165). -/
theorem C2_counterexample :
    (run_through_csv true ⟨true, false, [⟨Cell.str "Acme", Cell.str ""⟩]⟩ "US" "out"
      true true 0 none
      (fun _ => ⟨⟨.ok 1, .rows [⟨"Engineer", "Acme", "NYC", "a"⟩,
        ⟨"Engineer", "Acme", "NYC", "b"⟩], .noHits, .rows []⟩, .ok⟩)).state.outputRows =
      [⟨"Engineer", "Acme", "NYC", "a"⟩, ⟨"Engineer", "Acme", "NYC", "b"⟩] := rfl

/-- Claim C2 (amended): merges into the main output file perform no dedupe:
the fetched rows are appended as-is, so when two rows with identical
(title, company, location) keys are inserted in sequence, both — including
the earlier one — appear in the output.  (There is no progress store in
this source.) -/
theorem C2_amended (loc dir : String) (hf : Bool) (o : CompanyOracle)
    (st : RunState) (row : CsvRow) (r1 r2 : JobRow) (rest : List JobRow)
    (hna : row.company.isna = false)
    (hjobs : (scrape_company_linkedin_jobs row.company.render loc
      (if hf then some row.fallback else none) o.toScrapeOracle
      st.globalOutputDir).jobs = r1 :: r2 :: rest)
    (hok : o.writeJobs = .ok) (hkey : dedupeKey r1 = dedupeKey r2) :
    (processRow loc dir hf o st row).outputRows =
      st.outputRows ++ r1 :: r2 :: rest ∧
    r1 ∈ (processRow loc dir hf o st row).outputRows ∧
    r2 ∈ (processRow loc dir hf o st row).outputRows := by
  have h := processRow_write_ok loc dir hf o st row hna (by rw [hjobs]; simp) hok
  rw [hjobs] at h
  refine ⟨h, ?_, ?_⟩ <;> rw [h] <;> simp

/-- Claim C2 amended, witness. -/
theorem C2_amended_witness :
    (processRow "US" "out" false
      ⟨⟨.ok 1, .rows [⟨"Engineer", "Acme", "NYC", "a"⟩, ⟨"Engineer", "Acme", "NYC", "b"⟩],
        .noHits, .rows []⟩, .ok⟩ initState ⟨Cell.str "Acme", Cell.str ""⟩).outputRows =
      initState.outputRows ++ [⟨"Engineer", "Acme", "NYC", "a"⟩,
        ⟨"Engineer", "Acme", "NYC", "b"⟩] :=
  (C2_amended "US" "out" false
    ⟨⟨.ok 1, .rows [⟨"Engineer", "Acme", "NYC", "a"⟩, ⟨"Engineer", "Acme", "NYC", "b"⟩],
      .noHits, .rows []⟩, .ok⟩ initState ⟨Cell.str "Acme", Cell.str ""⟩
    ⟨"Engineer", "Acme", "NYC", "a"⟩ ⟨"Engineer", "Acme", "NYC", "b"⟩ []
    rfl rfl rfl rfl).1

/-- Claim C3 counterexample: on a two-company input, after the first company
alone (one company processed — no 40-company flush point has occurred), its
row is already in the main output file, so rows are written individually
per company, not buffered until a batch flush. -/
theorem C3_counterexample :
    (stepCompany ⟨true, false, [⟨Cell.str "Acme", Cell.str ""⟩, ⟨Cell.str "Beta", Cell.str ""⟩]⟩
      "US" "out"
      (fun _ => ⟨⟨.ok 1, .rows [⟨"Engineer", "Acme", "NYC", "a"⟩], .noHits, .rows []⟩, .ok⟩)
      initState 0).outputRows = [⟨"Engineer", "Acme", "NYC", "a"⟩] ∧
    (stepCompany ⟨true, false, [⟨Cell.str "Acme", Cell.str ""⟩, ⟨Cell.str "Beta", Cell.str ""⟩]⟩
      "US" "out"
      (fun _ => ⟨⟨.ok 1, .rows [⟨"Engineer", "Acme", "NYC", "a"⟩], .noHits, .rows []⟩, .ok⟩)
      initState 0).visited = [0] := ⟨rfl, rfl⟩

/-- Claim C3 (amended): fetched rows are not buffered across companies:
whenever a company's fetch result is non-empty and the append succeeds, the
rows are written to the main output file immediately within that company's
loop iteration — there are no 40-company batch flush points, and the
(1-second) pause happens after every company rather than between batches. -/
theorem C3_amended (loc dir : String) (hf : Bool) (o : CompanyOracle)
    (st : RunState) (row : CsvRow) (hna : row.company.isna = false)
    (hne : (scrape_company_linkedin_jobs row.company.render loc
      (if hf then some row.fallback else none) o.toScrapeOracle
      st.globalOutputDir).jobs ≠ [])
    (hok : o.writeJobs = .ok) :
    (processRow loc dir hf o st row).outputRows =
      st.outputRows ++ (scrape_company_linkedin_jobs row.company.render loc
        (if hf then some row.fallback else none) o.toScrapeOracle
        st.globalOutputDir).jobs :=
  processRow_write_ok loc dir hf o st row hna hne hok

/-- Claim C3 amended, witness. -/
theorem C3_amended_witness :
    (processRow "US" "out" false
      ⟨⟨.ok 1, .rows [⟨"Engineer", "Acme", "NYC", "a"⟩], .noHits, .rows []⟩, .ok⟩
      initState ⟨Cell.str "Acme", Cell.str ""⟩).outputRows =
      initState.outputRows ++ (scrape_company_linkedin_jobs "Acme" "US" none
        ⟨.ok 1, .rows [⟨"Engineer", "Acme", "NYC", "a"⟩], .noHits, .rows []⟩
        initState.globalOutputDir).jobs :=
  C3_amended "US" "out" false
    ⟨⟨.ok 1, .rows [⟨"Engineer", "Acme", "NYC", "a"⟩], .noHits, .rows []⟩, .ok⟩
    initState ⟨Cell.str "Acme", Cell.str ""⟩ rfl (by decide) rfl

/-- Claim C5 counterexample: a company whose identifier lookup fails with a
request exception gets an error record (from the resolver) AND is written
to the no-jobs log, because the failed lookup yields an empty DataFrame
which the driver treats as "no jobs found" (src lines 161-162) — the claim
says failed-lookup companies are never written to the no-jobs log. -/
theorem C5_counterexample :
    (processRow "US" "out" false
      ⟨⟨.requestError "timeout", .rows [], .noHits, .rows []⟩, .ok⟩
      initState ⟨Cell.str "NilCo", Cell.str ""⟩).errorLog =
      [⟨"", "NilCo", "RequestException: timeout", true⟩] ∧
    (processRow "US" "out" false
      ⟨⟨.requestError "timeout", .rows [], .noHits, .rows []⟩, .ok⟩
      initState ⟨Cell.str "NilCo", Cell.str ""⟩).noJobsLog =
      [⟨"out", "NilCo"⟩] := ⟨rfl, rfl⟩

/-- Claim C5 (amended): a company whose lookups raise no exception and whose
result is empty is never written to the error log; but a company whose
identifier lookup fails to resolve IS written to the no-jobs log, since the
failed lookup produces an empty result that the driver records as
no-jobs-found. -/
theorem C5_amended (loc dir : String) (hf : Bool) (o : CompanyOracle)
    (st : RunState) (row : CsvRow) :
    (o.toScrapeOracle.primaryLookup.emitsError = false →
      o.toScrapeOracle.fallbackLookup.emitsError = false →
      (scrape_company_linkedin_jobs row.company.render loc
        (if hf then some row.fallback else none) o.toScrapeOracle
        st.globalOutputDir).jobs = [] →
      (processRow loc dir hf o st row).errorLog = st.errorLog) ∧
    (row.company.isna = false →
      o.toScrapeOracle.primaryLookup.resolves = false →
      (processRow loc dir hf o st row).noJobsLog =
        st.noJobsLog ++ [⟨dir, row.company.render⟩]) := by
  constructor
  · intro h1 h2 hjobs
    unfold processRow
    by_cases hna : row.company.isna = true
    · rw [if_pos hna]
    · rw [if_neg hna]
      dsimp only
      rw [if_pos (by rw [hjobs]; rfl)]
      dsimp only
      rw [scrape_errors_nil _ _ _ _ _ h1 h2, List.append_nil]
  · intro hna hres
    unfold processRow
    rw [if_neg (by simp [hna])]
    dsimp only
    rw [scrape_primary_notFound _ _ _ _ _ hres]
    simp [save_empty_or_none_records]

/-- Claim C5 amended, witness: the first part at an empty benign fetch, the
second at a failed lookup. -/
theorem C5_amended_witness :
    (processRow "US" "out" false ⟨⟨.ok 4, .rows [], .noHits, .rows []⟩, .ok⟩
      initState ⟨Cell.str "Acme", Cell.str ""⟩).errorLog = initState.errorLog ∧
    (processRow "US" "out" false ⟨⟨.noHits, .rows [], .noHits, .rows []⟩, .ok⟩
      initState ⟨Cell.str "NilCo", Cell.str ""⟩).noJobsLog =
      initState.noJobsLog ++ [⟨"out", "NilCo"⟩] :=
  ⟨(C5_amended "US" "out" false ⟨⟨.ok 4, .rows [], .noHits, .rows []⟩, .ok⟩
      initState ⟨Cell.str "Acme", Cell.str ""⟩).1 rfl rfl rfl,
   (C5_amended "US" "out" false ⟨⟨.noHits, .rows [], .noHits, .rows []⟩, .ok⟩
      initState ⟨Cell.str "NilCo", Cell.str ""⟩).2 rfl rfl⟩

/-- The clamped end index is at most `total - 1`. -/
theorem clampEnd_le (total : Int) (eo : Option Int) : clampEnd total eo ≤ total - 1 := by
  unfold clampEnd
  cases eo with
  | none => exact le_refl _
  | some e =>
    split
    · exact le_refl _
    · omega

/-- With a readable CSV, a Company column and bounds satisfying
`0 ≤ start ≤ clamped end`, the run completes and visits exactly the indices
`start .. clamped end`, whatever the oracle does. -/
theorem run_valid_completed (df : Csv) (loc dir : String) (de fe : Bool)
    (s : Int) (eo : Option Int) (oracle : Nat → CompanyOracle)
    (hc : df.hasCompanyColumn = true) (h0 : 0 ≤ s)
    (hse : s ≤ clampEnd df.rows.length eo) :
    (run_through_csv true df loc dir de fe s eo oracle).outcome = .completed ∧
    (run_through_csv true df loc dir de fe s eo oracle).state.visited =
      List.range' s.toNat (clampEnd df.rows.length eo + 1 - s).toNat := by
  unfold run_through_csv
  rw [hc]
  rw [if_neg (by simp : ¬((!true : Bool) = true)),
    if_neg (by simp : ¬((!true : Bool) = true))]
  dsimp only
  rw [if_neg (by
    simp only [Bool.or_eq_true, decide_eq_true_eq, not_or, not_lt]
    exact ⟨h0, hse⟩)]
  constructor
  · rfl
  · rw [foldl_step_visited df loc dir oracle
      (List.range' s.toNat (clampEnd (df.rows.length : Int) eo + 1 - s).toNat) initState
      (by
        intro i hi
        rw [List.mem_range'_1] at hi
        have hcl := clampEnd_le (df.rows.length : Int) eo
        omega)]
    simp [initState]

/-- With a readable CSV and a Company column, bounds with `start < 0` or
`start >` the clamped end make the run return a range error immediately:
initial state, no directory made, no output file created. -/
theorem run_range_error (df : Csv) (loc dir : String) (de fe : Bool) (s : Int)
    (eo : Option Int) (oracle : Nat → CompanyOracle)
    (hc : df.hasCompanyColumn = true)
    (h : s < 0 ∨ clampEnd df.rows.length eo < s) :
    run_through_csv true df loc dir de fe s eo oracle =
      ⟨.rangeError s (clampEnd df.rows.length eo), initState, false, false⟩ := by
  unfold run_through_csv
  rw [hc]
  rw [if_neg (by simp : ¬((!true : Bool) = true)),
    if_neg (by simp : ¬((!true : Bool) = true))]
  dsimp only
  rw [if_pos (by simp only [Bool.or_eq_true, decide_eq_true_eq]; exact h)]

/-- When the company cell is not NaN, the fetch result is non-empty and the
output append raises, the loop body writes exactly one driver error record
(company + message, under `output_dir`) after the scraper's own records,
and nothing reaches the output file. -/
theorem processRow_write_raises (loc dir : String) (hf : Bool) (o : CompanyOracle)
    (st : RunState) (row : CsvRow) (msg : String) (hna : row.company.isna = false)
    (hne : (scrape_company_linkedin_jobs row.company.render loc
      (if hf then some row.fallback else none) o.toScrapeOracle
      st.globalOutputDir).jobs ≠ [])
    (hraise : o.writeJobs = .raises msg) :
    (processRow loc dir hf o st row).errorLog =
      st.errorLog ++ (scrape_company_linkedin_jobs row.company.render loc
        (if hf then some row.fallback else none) o.toScrapeOracle
        st.globalOutputDir).errors ++ [⟨dir, row.company.render, msg, false⟩] ∧
    (processRow loc dir hf o st row).outputRows = st.outputRows := by
  unfold processRow
  rw [if_neg (by simp [hna])]
  dsimp only
  rw [if_neg (by simp [List.isEmpty_iff, hne]), hraise]
  exact ⟨by simp [save_error_records], rfl⟩

/-- Claim C4 counterexample: a one-row input with bounds `start=0`,
`end=5`: the condition `0 ≤ start ≤ end < total` is violated
(`5 ≥ total = 1`), so the claim requires a range error with nothing
processed — but the source clamps `end_idx` to `total - 1`
(src lines 134-135) and completes the run, processing row 0. -/
theorem C4_counterexample :
    (run_through_csv true ⟨true, false, [⟨Cell.str "Acme", Cell.str ""⟩]⟩ "US" "out"
      true true 0 (some 5) (fun _ => benignOracle)).outcome = .completed ∧
    (run_through_csv true ⟨true, false, [⟨Cell.str "Acme", Cell.str ""⟩]⟩ "US" "out"
      true true 0 (some 5) (fun _ => benignOracle)).state.visited = [0] := ⟨rfl, rfl⟩

/-- Claim C4 (amended): `end_idx` of `None` or `≥ total` is clamped to
`total - 1`; the run fails with a range error — returning the initial state
with no directory or file created and nothing processed — exactly when
`start < 0` or `start >` the clamped end; otherwise it completes and visits
exactly the indices `start .. clamped end`. -/
theorem C4_amended :
    ∀ (df : Csv) (loc dir : String) (de fe : Bool) (s : Int) (eo : Option Int)
      (oracle : Nat → CompanyOracle), df.hasCompanyColumn = true →
    ((s < 0 ∨ clampEnd df.rows.length eo < s) →
      run_through_csv true df loc dir de fe s eo oracle =
        ⟨.rangeError s (clampEnd df.rows.length eo), initState, false, false⟩) ∧
    (0 ≤ s → s ≤ clampEnd df.rows.length eo →
      (run_through_csv true df loc dir de fe s eo oracle).outcome = .completed ∧
      (run_through_csv true df loc dir de fe s eo oracle).state.visited =
        List.range' s.toNat (clampEnd df.rows.length eo + 1 - s).toNat) :=
  fun df loc dir de fe s eo oracle hc =>
    ⟨fun h => run_range_error df loc dir de fe s eo oracle hc h,
     fun h0 hse => run_valid_completed df loc dir de fe s eo oracle hc h0 hse⟩

/-- Claim C4 amended, witness: the spec scenario `start=5, end=2` on a
10-row input aborts with a range error and touches nothing. -/
theorem C4_amended_witness :
    run_through_csv true ⟨true, false, List.replicate 10 ⟨Cell.str "A", Cell.str ""⟩⟩
      "US" "out" true true 5 (some 2) (fun _ => benignOracle) =
      ⟨.rangeError 5 2, initState, false, false⟩ :=
  (C4_amended ⟨true, false, List.replicate 10 ⟨Cell.str "A", Cell.str ""⟩⟩
    "US" "out" true true 5 (some 2) (fun _ => benignOracle) rfl).1 (Or.inr (by decide))

/-- Claim C7 counterexample: the fetch raises "ConnectionError" after a
successful lookup; the claim requires one ErrorEntry for the company, but
the error log stays empty — the exception is swallowed inside
`scrape_company_linkedin_jobs` (src lines 89-91), the company yields an
empty DataFrame, and it is recorded in the no-jobs log instead. -/
theorem C7_counterexample :
    (processRow "US" "out" false
      ⟨⟨.ok 9, .raises "ConnectionError", .noHits, .rows []⟩, .ok⟩
      initState ⟨Cell.str "Acme", Cell.str ""⟩).errorLog = [] ∧
    (processRow "US" "out" false
      ⟨⟨.ok 9, .raises "ConnectionError", .noHits, .rows []⟩, .ok⟩
      initState ⟨Cell.str "Acme", Cell.str ""⟩).noJobsLog =
      [⟨"out", "Acme"⟩] := ⟨rfl, rfl⟩

/-- Claim C7 (amended): the run always completes the validated range
whatever the per-company oracle does; an exception raised while writing a
company's rows to the output file yields exactly one driver ErrorEntry
(company + message) and processing continues; but an exception during
lookup or fetch is caught inside the scraper and results in an empty
DataFrame recorded in the no-jobs log, not an ErrorEntry. -/
theorem C7_amended :
    (∀ (df : Csv) (loc dir : String) (de fe : Bool) (s : Int) (eo : Option Int)
      (oracle : Nat → CompanyOracle), df.hasCompanyColumn = true → 0 ≤ s →
      s ≤ clampEnd df.rows.length eo →
      (run_through_csv true df loc dir de fe s eo oracle).outcome = .completed ∧
      (run_through_csv true df loc dir de fe s eo oracle).state.visited =
        List.range' s.toNat (clampEnd df.rows.length eo + 1 - s).toNat) ∧
    (∀ (loc dir : String) (hf : Bool) (o : CompanyOracle) (st : RunState)
      (row : CsvRow) (msg : String), row.company.isna = false →
      (scrape_company_linkedin_jobs row.company.render loc
        (if hf then some row.fallback else none) o.toScrapeOracle
        st.globalOutputDir).jobs ≠ [] →
      o.writeJobs = .raises msg →
      (processRow loc dir hf o st row).errorLog =
        st.errorLog ++ (scrape_company_linkedin_jobs row.company.render loc
          (if hf then some row.fallback else none) o.toScrapeOracle
          st.globalOutputDir).errors ++ [⟨dir, row.company.render, msg, false⟩] ∧
      (processRow loc dir hf o st row).outputRows = st.outputRows) :=
  ⟨fun df loc dir de fe s eo oracle hc h0 hse =>
      run_valid_completed df loc dir de fe s eo oracle hc h0 hse,
   fun loc dir hf o st row msg hna hne hraise =>
      processRow_write_raises loc dir hf o st row msg hna hne hraise⟩

/-- Claim C7 amended, witness: a completed one-company run, and a
write-failure that produces exactly the driver's error record. -/
theorem C7_amended_witness :
    ((run_through_csv true ⟨true, false, [⟨Cell.str "Acme", Cell.str ""⟩]⟩ "US" "out"
        true true 0 none (fun _ => benignOracle)).outcome = .completed ∧
      (run_through_csv true ⟨true, false, [⟨Cell.str "Acme", Cell.str ""⟩]⟩ "US" "out"
        true true 0 none (fun _ => benignOracle)).state.visited = List.range' 0 1) ∧
    ((processRow "US" "out" false
        ⟨⟨.ok 1, .rows [⟨"Engineer", "Acme", "NYC", "a"⟩], .noHits, .rows []⟩,
          .raises "disk full"⟩
        initState ⟨Cell.str "Acme", Cell.str ""⟩).errorLog =
        initState.errorLog ++ [] ++ [⟨"out", "Acme", "disk full", false⟩] ∧
      (processRow "US" "out" false
        ⟨⟨.ok 1, .rows [⟨"Engineer", "Acme", "NYC", "a"⟩], .noHits, .rows []⟩,
          .raises "disk full"⟩
        initState ⟨Cell.str "Acme", Cell.str ""⟩).outputRows = initState.outputRows) :=
  ⟨C7_amended.1 ⟨true, false, [⟨Cell.str "Acme", Cell.str ""⟩]⟩ "US" "out"
      true true 0 none (fun _ => benignOracle) rfl (by decide) (by decide),
   C7_amended.2 "US" "out" false
      ⟨⟨.ok 1, .rows [⟨"Engineer", "Acme", "NYC", "a"⟩], .noHits, .rows []⟩,
        .raises "disk full"⟩
      initState ⟨Cell.str "Acme", Cell.str ""⟩ "disk full" rfl (by decide) rfl⟩

/-- Claim C8: throughout every run, the module-level `OUTPUT_DIR` stays the
empty string (the assignment in `run_through_csv` binds a local), and every
error record written from the resolver's failure paths went to the path
derived from the empty directory, not from the run's `output_dir`
parameter. -/
theorem C8_global_output_dir (ce : Bool) (df : Csv) (loc dir : String)
    (de fe : Bool) (s : Int) (eo : Option Int) (oracle : Nat → CompanyOracle) :
    (run_through_csv ce df loc dir de fe s eo oracle).state.globalOutputDir = "" ∧
    ∀ rec ∈ (run_through_csv ce df loc dir de fe s eo oracle).state.errorLog,
      rec.fromResolver = true → rec.dir = "" := by
  unfold run_through_csv
  split
  · exact ⟨rfl, by intro rec h; simp [initState] at h⟩
  · split
    · exact ⟨rfl, by intro rec h; simp [initState] at h⟩
    · dsimp only
      split
      · exact ⟨rfl, by intro rec h; simp [initState] at h⟩
      · constructor
        · rw [foldl_step_globalOutputDir]
          rfl
        · intro rec hrec
          exact foldl_step_resolver_inv df loc dir oracle "" _ initState rfl
            (by intro e he; simp [initState] at he) rec hrec

/-- Claim C8 witness: a run whose single company's lookup raises a request
exception; the resolver's error record lands under the empty directory
(the file `error_records.csv` in the process working directory), not under
"out". -/
theorem C8_witness :
    (run_through_csv true ⟨true, false, [⟨Cell.str "NilCo", Cell.str ""⟩]⟩ "US" "out"
      true true 0 none
      (fun _ => ⟨⟨.requestError "timeout", .rows [], .noHits, .rows []⟩, .ok⟩)).state.globalOutputDir
      = "" ∧
    (⟨"", "NilCo", "RequestException: timeout", true⟩ : ErrorRecord).dir = "" :=
  ⟨(C8_global_output_dir true ⟨true, false, [⟨Cell.str "NilCo", Cell.str ""⟩]⟩ "US" "out"
      true true 0 none
      (fun _ => ⟨⟨.requestError "timeout", .rows [], .noHits, .rows []⟩, .ok⟩)).1,
   (C8_global_output_dir true ⟨true, false, [⟨Cell.str "NilCo", Cell.str ""⟩]⟩ "US" "out"
      true true 0 none
      (fun _ => ⟨⟨.requestError "timeout", .rows [], .noHits, .rows []⟩, .ok⟩)).2
      ⟨"", "NilCo", "RequestException: timeout", true⟩ (by decide) rfl⟩

end Scraper
